import Mathlib

/-!
Shallow embedding of src/src/maidsafe/transport/tcpconnection.cc.

Each method of the TcpConnection class is translated to a pure Lean
function from the connection state to a new state together with a list
of observable actions (error-callback invocations, socket operations,
timer operations, registry removal, asynchronous operations issued).
The completion handlers take the error flag of the finished operation
and the state at handler entry; the socketOpen field models the value
of socket_.is_open() at that moment, and the buffer field holds the
bytes the buffer contains at that moment.

Configuration constants (DataSize width, kMaxTransportMessageSize,
kTimeoutFactor, kMinTimeout, kDefaultInitialTimeout, kImmediateTimeout)
are declared in headers outside the repository slice, so they are kept
abstract as fields of a Config record; durations and sizes are modelled
as natural numbers.
-/

namespace TcpConnection

/-- Error kinds passed to the on error callback. Modelled from the spec:
the TransportCondition enumeration lives in a header outside the
repository slice; the spec names the five kinds used here. -/
inductive ErrorKind where
  | receiveTimeout
  | receiveFailure
  | sendTimeout
  | sendFailure
  | messageSizeTooLarge
deriving DecidableEq

/-- Observable actions of a connection method: callback invocations,
socket and timer operations, and the asynchronous operations issued. -/
inductive Action where
  | reportError (e : ErrorKind)
  | closeSocket
  | cancelTimer
  | removeConnection
  | startTimeout (d : Nat)
  | asyncRead (n : Nat)
  | asyncWrite (b : List Nat)
  | asyncConnect
  | dispatch (b : List Nat)
deriving DecidableEq

/-- Configuration constants, abstract because they are declared in
headers outside the repository slice. sizeFieldWidth stands for
sizeof(DataSize), the width in bytes of the length field. -/
structure Config where
  sizeFieldWidth : Nat
  kMaxTransportMessageSize : Nat
  kTimeoutFactor : Nat
  kMinTimeout : Nat
  kDefaultInitialTimeout : Nat
  kImmediateTimeout : Nat
deriving DecidableEq

/-- Mutable state of one TcpConnection: whether socket_.is_open(),
the deadline timer (some d when armed for duration d), the byte
contents of buffer_, and timeout_for_response_. -/
structure Conn where
  socketOpen : Bool
  timer : Option Nat
  buffer : List Nat
  timeoutForResponse : Nat
deriving DecidableEq

/-- The application message handler: from the received payload to the
reply payload and the reply timeout (out parameters of
on_message_received_); an empty reply list models response.empty(). -/
def MsgHandler : Type := List Nat → List Nat × Nat

/-- Write n as w bytes, least significant first (native byte order of
the reinterpret casts in the source, modelled as little endian). -/
def natToBytesLE : Nat → Nat → List Nat
  | 0, _ => []
  | w + 1, n => n % 256 :: natToBytesLE w (n / 256)

/-- Read a little endian byte list back as a natural number. -/
def bytesToNatLE : List Nat → Nat
  | [] => 0
  | b :: bs => b + 256 * bytesToNatLE bs

/-- Modelled from the spec: the frame layout Send is meant to build
(length as a fixed width integer immediately followed by the payload
bytes). The source line buffer filling the payload part
(tcpconnection.cc line 156) assigns a std::string object onto the raw
buffer through a reinterpret cast, which is undefined behaviour and
does not place the payload bytes there, so the content written by the
code is not definable; the allocated size msg_size + sizeof(DataSize)
matches the code exactly. -/
def encodeFrame (cfg : Config) (data : List Nat) : List Nat :=
  natToBytesLE cfg.sizeFieldWidth data.length ++ data

/-- The receive path decoding of one frame, from HandleSize and
HandleRead: read exactly sizeFieldWidth bytes, interpret them as the
payload length, then read exactly that many payload bytes. -/
def decodeFrame (cfg : Config) (buf : List Nat) : Option (List Nat) :=
  if buf.length < cfg.sizeFieldWidth then none
  else
    let size := bytesToNatLE (buf.take cfg.sizeFieldWidth)
    let rest := buf.drop cfg.sizeFieldWidth
    if rest.length < size then none else some (rest.take size)

/-- TcpConnection::Close (lines 59 to 63): close the socket, cancel the
timer, and ask the transport to remove this connection from its
registry. All three happen unconditionally on every call. -/
def Close (c : Conn) : Conn × List Action :=
  ({ c with socketOpen := false, timer := none },
   [Action.closeSocket, Action.cancelTimer, Action.removeConnection])

/-- TcpConnection::StartTimeout (lines 69 to 73): re-arm the single
deadline timer for the given duration (expires_from_now cancels any
previously armed wait) and wait for HandleTimeout. -/
def StartTimeout (timeout : Nat) (c : Conn) : Conn × List Action :=
  ({ c with timer := some timeout }, [Action.startTimeout timeout])

/-- TcpConnection::HandleTimeout (lines 85 to 89): on cancellation
(error code set) do nothing; on actual expiry close only the socket. -/
def HandleTimeout (hasError : Bool) (c : Conn) : Conn × List Action :=
  if hasError then (c, [])
  else ({ c with socketOpen := false }, [Action.closeSocket])

/-- Modelled from the spec: deadline timer expiry semantics (the asio
timer itself is outside the repository slice). An armed timer fires by
running HandleTimeout with no error; a cancelled or unarmed timer does
not fire at all. -/
def fireTimer (c : Conn) : Conn × List Action :=
  match c.timer with
  | none => (c, [])
  | some _ => HandleTimeout false { c with timer := none }

/-- TcpConnection::StartReceiving (lines 75 to 83): allocate the buffer
for the length field, issue an asynchronous read of exactly that many
bytes, and arm the timer with timeout_for_response_. -/
def StartReceiving (cfg : Config) (c : Conn) : Conn × List Action :=
  let c1 := { c with buffer := List.replicate cfg.sizeFieldWidth 0 }
  let r := StartTimeout c1.timeoutForResponse c1
  (r.1, Action.asyncRead cfg.sizeFieldWidth :: r.2)

/-- TcpConnection::Send (lines 142 to 176): reject an oversized payload
before any other effect; otherwise build the frame buffer, record the
response timeout, and either (response path) arm the size scaled write
deadline and write, or (request path) arm the default initial deadline
and connect. -/
def Send (cfg : Config) (data : List Nat) (timeout : Nat)
    ( is_response : Bool) (c : Conn) : Conn × List Action :=
  let msg_size := data.length
  if msg_size > cfg.kMaxTransportMessageSize then
    (c, [Action.reportError ErrorKind.messageSizeTooLarge])
  else
    let c1 := { c with buffer := encodeFrame cfg data,
                       timeoutForResponse := timeout }
    if is_response then
      let tm_out := max (msg_size * cfg.kTimeoutFactor) cfg.kMinTimeout
      let r := StartTimeout tm_out c1
      (r.1, r.2 ++ [Action.asyncWrite c1.buffer])
    else
      let r := StartTimeout cfg.kDefaultInitialTimeout c1
      (r.1, r.2 ++ [Action.asyncConnect])

/-- TcpConnection::DispatchMessage (lines 129 to 140): invoke the
message received callback; if the reply is empty simply return,
otherwise send the reply as a response. -/
def DispatchMessage (cfg : Config) (handler : MsgHandler)
    (data : List Nat) (c : Conn) : Conn × List Action :=
  let response := (handler data).1
  let response_timeout := (handler data).2
  if response = [] then (c, [Action.dispatch data])
  else
    let r := Send cfg response response_timeout true c
    (r.1, Action.dispatch data :: r.2)

/-- TcpConnection::HandleSize (lines 91 to 109): closed socket means
the timeout fired (report receive timeout, Close); an error code means
receive failure (report, Close); otherwise reinterpret the buffered
bytes as the size, reallocate the buffer to exactly that many bytes and
read them. -/
def HandleSize (cfg : Config) (hasError : Bool) (c : Conn) :
    Conn × List Action :=
  if c.socketOpen = false then
    let r := Close c
    (r.1, Action.reportError ErrorKind.receiveTimeout :: r.2)
  else if hasError then
    let r := Close c
    (r.1, Action.reportError ErrorKind.receiveFailure :: r.2)
  else
    let size := bytesToNatLE (c.buffer.take cfg.sizeFieldWidth)
    ({ c with buffer := List.replicate size 0 }, [Action.asyncRead size])

/-- TcpConnection::HandleRead (lines 111 to 127): same two error checks
as HandleSize; on success take the buffered payload, cancel the timer,
and dispatch the payload. -/
def HandleRead (cfg : Config) (handler : MsgHandler) (hasError : Bool)
    (c : Conn) : Conn × List Action :=
  if c.socketOpen = false then
    let r := Close c
    (r.1, Action.reportError ErrorKind.receiveTimeout :: r.2)
  else if hasError then
    let r := Close c
    (r.1, Action.reportError ErrorKind.receiveFailure :: r.2)
  else
    let data := c.buffer
    let c1 := { c with timer := none }
    let r := DispatchMessage cfg handler data c1
    (r.1, Action.cancelTimer :: r.2)

/-- TcpConnection::HandleConnect (lines 178 to 197): closed socket
means the timeout fired (report send timeout, Close); an error code
means send failure (report, Close); otherwise arm a deadline scaled by
the size of the whole frame buffer and write the frame. -/
def HandleConnect (cfg : Config) (hasError : Bool) (c : Conn) :
    Conn × List Action :=
  if c.socketOpen = false then
    let r := Close c
    (r.1, Action.reportError ErrorKind.sendTimeout :: r.2)
  else if hasError then
    let r := Close c
    (r.1, Action.reportError ErrorKind.sendFailure :: r.2)
  else
    let tm_out := max (c.buffer.length * cfg.kTimeoutFactor) cfg.kMinTimeout
    let r := StartTimeout tm_out c
    (r.1, r.2 ++ [Action.asyncWrite c.buffer])

/-- TcpConnection::HandleWrite (lines 199 to 217): same two error
checks; on success start receiving the response when
timeout_for_response_ differs from the immediate sentinel, otherwise
Close. -/
def HandleWrite (cfg : Config) (hasError : Bool) (c : Conn) :
    Conn × List Action :=
  if c.socketOpen = false then
    let r := Close c
    (r.1, Action.reportError ErrorKind.sendTimeout :: r.2)
  else if hasError then
    let r := Close c
    (r.1, Action.reportError ErrorKind.sendFailure :: r.2)
  else if c.timeoutForResponse ≠ cfg.kImmediateTimeout then
    StartReceiving cfg c
  else
    Close c

/-- The error kind an action reports, when it is an error report. -/
def reportedError : Action → Option ErrorKind
  | Action.reportError e => some e
  | _ => none

/-- Whether an action is the registry removal notification. -/
def isRemove : Action → Bool
  | Action.removeConnection => true
  | _ => false

/-- Whether an action issues an asynchronous socket write. -/
def isWrite : Action → Bool
  | Action.asyncWrite _ => true
  | _ => false

/-- Whether an action issues an asynchronous socket read. -/
def isRead : Action → Bool
  | Action.asyncRead _ => true
  | _ => false

/-- Whether an action initiates a connect. -/
def isConnect : Action → Bool
  | Action.asyncConnect => true
  | _ => false

/-- Whether an action dispatches a payload to the application. -/
def isDispatchAction : Action → Bool
  | Action.dispatch _ => true
  | _ => false

/-- The deadline duration an action arms, when it arms one. -/
def armedDuration : Action → Option Nat
  | Action.startTimeout d => some d
  | _ => none

/-- The error kinds reported through the error callback, in order. -/
def errorsReported (as : List Action) : List ErrorKind :=
  as.filterMap reportedError

/-- Whether Close was invoked: Close is the only method that notifies
the registry, so a removeConnection action marks a Close call. -/
def closeInvoked (as : List Action) : Bool :=
  as.any isRemove

/-- Number of registry removal notifications in the action list. -/
def countRemoves (as : List Action) : Nat :=
  as.countP isRemove

/-- Number of asynchronous socket writes issued. -/
def countWrites (as : List Action) : Nat :=
  as.countP isWrite

/-- Number of asynchronous socket reads issued. -/
def countReads (as : List Action) : Nat :=
  as.countP isRead

/-- Number of connect attempts initiated. -/
def countConnects (as : List Action) : Nat :=
  as.countP isConnect

/-- Number of payload dispatches to the application handler. -/
def countDispatches (as : List Action) : Nat :=
  as.countP isDispatchAction

/-- The deadline durations armed, in order. -/
def timeoutsArmed (as : List Action) : List Nat :=
  as.filterMap armedDuration

/-- The prefix of an action list up to the first dispatch. -/
def beforeDispatch (as : List Action) : List Action :=
  as.takeWhile fun a => !(isDispatchAction a)

theorem natToBytesLE_length (w n : Nat) : (natToBytesLE w n).length = w := by
  induction w generalizing n with
  | zero => rfl
  | succ w ih => simp [natToBytesLE, ih]

theorem bytesToNatLE_natToBytesLE (w n : Nat) (h : n < 256 ^ w) :
    bytesToNatLE (natToBytesLE w n) = n := by
  induction w generalizing n with
  | zero =>
    interval_cases n
    rfl
  | succ w ih =>
    have hdiv : n / 256 < 256 ^ w := by
      rw [Nat.div_lt_iff_lt_mul (by norm_num)]
      calc n < 256 ^ (w + 1) := h
        _ = 256 ^ w * 256 := by rw [pow_succ]
    simp [natToBytesLE, bytesToNatLE, ih _ hdiv, Nat.mod_add_div]

theorem take_append_length (l1 l2 : List Nat) (n : Nat)
    (h : l1.length = n) : (l1 ++ l2).take n = l1 := by
  subst h
  exact List.take_left l1 l2

theorem drop_append_length (l1 l2 : List Nat) (n : Nat)
    (h : l1.length = n) : (l1 ++ l2).drop n = l2 := by
  subst h
  exact List.drop_left l1 l2

theorem send_actions_no_remove (cfg : Config) (data : List Nat) (t : Nat)
    (r : Bool) (c : Conn) :
    ∀ a ∈ (Send cfg data t r c).2, isRemove a = false := by
  by_cases hs : data.length > cfg.kMaxTransportMessageSize
  · simp [Send, hs, isRemove]
  · cases r <;> simp [Send, hs, isRemove, StartTimeout]

theorem send_actions_no_dispatch (cfg : Config) (data : List Nat) (t : Nat)
    (r : Bool) (c : Conn) :
    ∀ a ∈ (Send cfg data t r c).2, isDispatchAction a = false := by
  by_cases hs : data.length > cfg.kMaxTransportMessageSize
  · simp [Send, hs, isDispatchAction]
  · cases r <;> simp [Send, hs, isDispatchAction, StartTimeout]

/-- C1: for every payload p whose size is at most the configured
maximum message size, encoding p as a length prefixed frame and
decoding that frame on the receive path yields back exactly p, provided
the maximum is representable in the length field. Stated against the
intended frame layout encodeFrame; the payload write in
TcpConnection::Send (line 156) does not realise this layout, see the
doc comment of encodeFrame. -/
theorem encode_decode_roundtrip (cfg : Config) (p : List Nat)
    (hmax : p.length ≤ cfg.kMaxTransportMessageSize)
    (hrep : cfg.kMaxTransportMessageSize < 256 ^ cfg.sizeFieldWidth) :
    decodeFrame cfg (encodeFrame cfg p) = some p := by
  have hlen : p.length < 256 ^ cfg.sizeFieldWidth := lt_of_le_of_lt hmax hrep
  have hW : (natToBytesLE cfg.sizeFieldWidth p.length).length =
      cfg.sizeFieldWidth := natToBytesLE_length _ _
  simp only [decodeFrame, encodeFrame]
  rw [take_append_length _ _ _ hW, drop_append_length _ _ _ hW,
    bytesToNatLE_natToBytesLE _ _ hlen]
  simp [natToBytesLE_length]

/-- Witness for C1 at the payload PING with a four byte length field. -/
theorem encode_decode_roundtrip_witness :
    decodeFrame ⟨4, 67108864, 10, 1, 7, 0⟩
      (encodeFrame ⟨4, 67108864, 10, 1, 7, 0⟩ [80, 73, 78, 71]) =
      some [80, 73, 78, 71] :=
  encode_decode_roundtrip ⟨4, 67108864, 10, 1, 7, 0⟩ [80, 73, 78, 71]
    (by norm_num) (by norm_num)

/-- C4: Send with a payload larger than the configured maximum reports
the message size error through the error callback and performs no other
effect: the state (socket, timer, buffer, recorded response timeout) is
unchanged, no bytes are written, no connect is initiated, no deadline
is armed and the connection is not closed. -/
theorem send_oversize_reports_and_does_no_io (cfg : Config)
    (data : List Nat) (t : Nat) (r : Bool) (c : Conn)
    (h : data.length > cfg.kMaxTransportMessageSize) :
    Send cfg data t r c =
      (c, [Action.reportError ErrorKind.messageSizeTooLarge]) ∧
    countWrites (Send cfg data t r c).2 = 0 ∧
    countConnects (Send cfg data t r c).2 = 0 ∧
    timeoutsArmed (Send cfg data t r c).2 = [] ∧
    closeInvoked (Send cfg data t r c).2 = false := by
  refine ⟨?_, ?_, ?_, ?_, ?_⟩ <;>
    simp [Send, h, countWrites, countConnects, timeoutsArmed,
      closeInvoked, isWrite, isConnect, armedDuration, isRemove,
      reportedError]

/-- Witness for C4: a three byte payload against a two byte maximum. -/
theorem send_oversize_reports_and_does_no_io_witness :
    Send ⟨4, 2, 10, 1, 7, 0⟩ [9, 9, 9] 5 false ⟨false, none, [], 0⟩ =
      (⟨false, none, [], 0⟩,
       [Action.reportError ErrorKind.messageSizeTooLarge]) ∧
    countWrites (Send ⟨4, 2, 10, 1, 7, 0⟩ [9, 9, 9] 5 false
      ⟨false, none, [], 0⟩).2 = 0 ∧
    countConnects (Send ⟨4, 2, 10, 1, 7, 0⟩ [9, 9, 9] 5 false
      ⟨false, none, [], 0⟩).2 = 0 ∧
    timeoutsArmed (Send ⟨4, 2, 10, 1, 7, 0⟩ [9, 9, 9] 5 false
      ⟨false, none, [], 0⟩).2 = [] ∧
    closeInvoked (Send ⟨4, 2, 10, 1, 7, 0⟩ [9, 9, 9] 5 false
      ⟨false, none, [], 0⟩).2 = false :=
  send_oversize_reports_and_does_no_io ⟨4, 2, 10, 1, 7, 0⟩ [9, 9, 9] 5
    false ⟨false, none, [], 0⟩ (by norm_num)

/-- C2 counterexample: a concrete dispatched message whose handler
returns an empty reply. DispatchMessage does not invoke Close: no
registry removal appears among its actions and the connection state
still has the socket open, refuting the claim that the connection is
closed after dispatch. -/
theorem dispatch_empty_reply_does_not_close :
    closeInvoked (DispatchMessage ⟨4, 100, 10, 1, 7, 0⟩ (fun _ => ([], 0))
      [1, 2, 3] ⟨true, none, [1, 2, 3], 5⟩).2 = false ∧
    (DispatchMessage ⟨4, 100, 10, 1, 7, 0⟩ (fun _ => ([], 0))
      [1, 2, 3] ⟨true, none, [1, 2, 3], 5⟩).1.socketOpen = true :=
  ⟨rfl, rfl⟩

/-- C2 amended: for every dispatched message whose handler returns an
empty reply, DispatchMessage sends no response and simply returns: the
connection state is untouched, Close is not invoked, and the connection
is left open for its caller. -/
theorem dispatch_empty_reply_no_send_no_close (cfg : Config)
    (handler : MsgHandler) (data : List Nat) (c : Conn)
    (h : (handler data).1 = []) :
    DispatchMessage cfg handler data c = (c, [Action.dispatch data]) ∧
    countWrites (DispatchMessage cfg handler data c).2 = 0 ∧
    closeInvoked (DispatchMessage cfg handler data c).2 = false := by
  refine ⟨?_, ?_, ?_⟩ <;>
    simp [DispatchMessage, h, countWrites, closeInvoked, isWrite, isRemove]

/-- Witness for the amended C2 at a concrete empty reply handler. -/
theorem dispatch_empty_reply_no_send_no_close_witness :
    DispatchMessage ⟨4, 100, 10, 1, 7, 0⟩ (fun _ => ([], 9)) [7]
      ⟨true, some 5, [7], 5⟩ =
      (⟨true, some 5, [7], 5⟩, [Action.dispatch [7]]) ∧
    countWrites (DispatchMessage ⟨4, 100, 10, 1, 7, 0⟩ (fun _ => ([], 9))
      [7] ⟨true, some 5, [7], 5⟩).2 = 0 ∧
    closeInvoked (DispatchMessage ⟨4, 100, 10, 1, 7, 0⟩ (fun _ => ([], 9))
      [7] ⟨true, some 5, [7], 5⟩).2 = false :=
  dispatch_empty_reply_no_send_no_close ⟨4, 100, 10, 1, 7, 0⟩
    (fun _ => ([], 9)) [7] ⟨true, some 5, [7], 5⟩ rfl

/-- C3 counterexample: invoking Close twice in succession on a concrete
open connection produces two registry removal notifications, not
exactly one as the claim states. -/
theorem close_twice_not_one_removal :
    countRemoves ((Close ⟨true, some 5, [], 3⟩).2 ++
      (Close (Close ⟨true, some 5, [], 3⟩).1).2) ≠ 1 := by
  decide

/-- C3 amended: Close is idempotent on the connection state (a second
call finds the socket already closed and the timer already cancelled
and leaves the state unchanged), but every invocation unconditionally
calls RemoveConnection, so each of the two calls produces its own
registry removal notification; collapsing the repeat to one removal is
left to the registry. -/
theorem close_state_idempotent_removal_per_call (c : Conn) :
    (Close (Close c).1).1 = (Close c).1 ∧
    countRemoves (Close c).2 = 1 ∧
    countRemoves (Close (Close c).1).2 = 1 := by
  refine ⟨rfl, ?_, ?_⟩ <;> simp [Close, countRemoves, isRemove]

/-- C5: every completion handler (HandleConnect, HandleWrite,
HandleSize, HandleRead) follows the same priority order. With the
socket no longer open it reports the timeout class error of its phase
and invokes Close; with the socket open but the operation in error it
reports the failure class error and invokes Close; otherwise it reports
no error (up to the application dispatch, whose own reply processing
may report) and proceeds to its next phase: connect issues the write,
read-length issues the body read, read-body dispatches, and write
either starts receiving or closes. -/
theorem completion_handlers_priority (cfg : Config) (handler : MsgHandler)
    (e : Bool) (c : Conn) :
    errorsReported (beforeDispatch (HandleSize cfg e c).2) =
      (if c.socketOpen = false then [ErrorKind.receiveTimeout]
       else if e then [ErrorKind.receiveFailure] else []) ∧
    errorsReported (beforeDispatch (HandleRead cfg handler e c).2) =
      (if c.socketOpen = false then [ErrorKind.receiveTimeout]
       else if e then [ErrorKind.receiveFailure] else []) ∧
    errorsReported (beforeDispatch (HandleConnect cfg e c).2) =
      (if c.socketOpen = false then [ErrorKind.sendTimeout]
       else if e then [ErrorKind.sendFailure] else []) ∧
    errorsReported (beforeDispatch (HandleWrite cfg e c).2) =
      (if c.socketOpen = false then [ErrorKind.sendTimeout]
       else if e then [ErrorKind.sendFailure] else []) ∧
    closeInvoked (HandleSize cfg e c).2 = (!c.socketOpen || e) ∧
    closeInvoked (HandleRead cfg handler e c).2 = (!c.socketOpen || e) ∧
    closeInvoked (HandleConnect cfg e c).2 = (!c.socketOpen || e) ∧
    closeInvoked (HandleWrite cfg e c).2 =
      (!c.socketOpen || e ||
        (c.timeoutForResponse == cfg.kImmediateTimeout)) ∧
    countReads (HandleSize cfg e c).2 =
      (if c.socketOpen && !e then 1 else 0) ∧
    countDispatches (HandleRead cfg handler e c).2 =
      (if c.socketOpen && !e then 1 else 0) ∧
    countWrites (HandleConnect cfg e c).2 =
      (if c.socketOpen && !e then 1 else 0) ∧
    countReads (HandleWrite cfg e c).2 =
      (if c.socketOpen && !e &&
        !(c.timeoutForResponse == cfg.kImmediateTimeout) then 1 else 0) := by
  cases hc : c.socketOpen with
  | false =>
    cases e <;>
      simp [HandleSize, HandleRead, HandleConnect, HandleWrite, Close,
        hc, errorsReported, beforeDispatch, closeInvoked, countReads,
        countWrites, countDispatches, reportedError, isRemove, isRead,
        isWrite, isDispatchAction]
  | true =>
    cases e with
    | true =>
      simp [HandleSize, HandleRead, HandleConnect, HandleWrite, Close,
        hc, errorsReported, beforeDispatch, closeInvoked, countReads,
        countWrites, countDispatches, reportedError, isRemove, isRead,
        isWrite, isDispatchAction]
    | false =>
      by_cases hr : (handler c.buffer).1 = [] <;>
        by_cases ht : c.timeoutForResponse = cfg.kImmediateTimeout <;>
          simp [HandleSize, HandleRead, HandleConnect, HandleWrite,
            Close, StartReceiving, StartTimeout, DispatchMessage, hc, hr,
            ht, errorsReported, beforeDispatch, closeInvoked, countReads,
            countWrites, countDispatches, reportedError, isRemove,
            isRead, isWrite, isDispatchAction] <;>
          exact ⟨send_actions_no_remove cfg _ _ _ _,
            send_actions_no_dispatch cfg _ _ _ _⟩

/-- C6 counterexample: a 100 byte payload with factor 1 and minimum 1.
After the non response Send, the write issued by HandleConnect arms a
deadline computed from buffer_.Size(), which is payload plus the four
byte length field, so the armed deadline is not
max(payload_size x factor, minimum) = max 100 1. -/
theorem handleConnect_deadline_not_payload_scaled :
    timeoutsArmed (HandleConnect ⟨4, 1000, 1, 1, 7, 0⟩ false
      { (Send ⟨4, 1000, 1, 1, 7, 0⟩ (List.replicate 100 0) 5 false
          ⟨false, none, [], 0⟩).1 with socketOpen := true }).2 ≠
      [max (100 * 1) 1] := by
  decide

/-- C6 amended: the write deadline on the is_response path of Send is
max(payload_size x factor, minimum), but the write issued by
HandleConnect after a successful connect arms
max(frame_size x factor, minimum), where frame_size is the payload size
plus the width of the length field (buffer_.Size() counts the length
prefix). -/
theorem write_deadline_values (cfg : Config) (p : List Nat) (t : Nat)
    (c : Conn) (hmax : p.length ≤ cfg.kMaxTransportMessageSize) :
    timeoutsArmed (Send cfg p t true c).2 =
      [max (p.length * cfg.kTimeoutFactor) cfg.kMinTimeout] ∧
    timeoutsArmed (HandleConnect cfg false
      { (Send cfg p t false c).1 with socketOpen := true }).2 =
      [max ((cfg.sizeFieldWidth + p.length) * cfg.kTimeoutFactor)
        cfg.kMinTimeout] := by
  have hs : ¬ p.length > cfg.kMaxTransportMessageSize := by omega
  constructor
  · simp [Send, hs, StartTimeout, timeoutsArmed, armedDuration]
  · simp [Send, hs, HandleConnect, StartTimeout, timeoutsArmed,
      armedDuration, encodeFrame, natToBytesLE_length]

/-- Witness for the amended C6: a four byte payload, factor 10,
minimum 1; Send arms max 40 1 = 40 and HandleConnect arms
max 80 1 = 80 for the eight byte frame. -/
theorem write_deadline_values_witness :
    timeoutsArmed (Send ⟨4, 1000, 10, 1, 7, 0⟩ [80, 73, 78, 71] 5 true
      ⟨true, none, [], 0⟩).2 = [max (4 * 10) 1] ∧
    timeoutsArmed (HandleConnect ⟨4, 1000, 10, 1, 7, 0⟩ false
      { (Send ⟨4, 1000, 10, 1, 7, 0⟩ [80, 73, 78, 71] 5 false
          ⟨false, none, [], 0⟩).1 with socketOpen := true }).2 =
      [max ((4 + 4) * 10) 1] :=
  write_deadline_values ⟨4, 1000, 10, 1, 7, 0⟩ [80, 73, 78, 71] 5
    ⟨true, none, [], 0⟩ (by norm_num)

/-- C7: after a successful write (HandleWrite with the socket open and
no error), the connection starts receiving exactly when the recorded
response timeout differs from the immediate sentinel; when it equals
the sentinel the connection is closed instead and no read is issued. -/
theorem handleWrite_success_receive_or_close (cfg : Config) (c : Conn)
    (hopen : c.socketOpen = true) :
    (HandleWrite cfg false c).2 =
      (if c.timeoutForResponse = cfg.kImmediateTimeout then
        [Action.closeSocket, Action.cancelTimer, Action.removeConnection]
       else
        [Action.asyncRead cfg.sizeFieldWidth,
         Action.startTimeout c.timeoutForResponse]) ∧
    (countReads (HandleWrite cfg false c).2 = 1 ↔
      c.timeoutForResponse ≠ cfg.kImmediateTimeout) ∧
    (closeInvoked (HandleWrite cfg false c).2 = true ↔
      c.timeoutForResponse = cfg.kImmediateTimeout) := by
  by_cases ht : c.timeoutForResponse = cfg.kImmediateTimeout <;>
    refine ⟨?_, ?_, ?_⟩ <;>
      simp [HandleWrite, hopen, ht, Close, StartReceiving, StartTimeout,
        countReads, closeInvoked, isRead, isRemove]

/-- Witness for C7: with the immediate sentinel 0, a recorded response
timeout of 5 starts the receive and a recorded response timeout of 0
closes the connection. -/
theorem handleWrite_success_receive_or_close_witness :
    (HandleWrite ⟨4, 100, 10, 1, 7, 0⟩ false ⟨true, none, [], 5⟩).2 =
      [Action.asyncRead 4, Action.startTimeout 5] ∧
    (HandleWrite ⟨4, 100, 10, 1, 7, 0⟩ false ⟨true, none, [], 0⟩).2 =
      [Action.closeSocket, Action.cancelTimer, Action.removeConnection] := by
  constructor
  · have h := handleWrite_success_receive_or_close ⟨4, 100, 10, 1, 7, 0⟩
      ⟨true, none, [], 5⟩ rfl
    simpa using h.1
  · have h := handleWrite_success_receive_or_close ⟨4, 100, 10, 1, 7, 0⟩
      ⟨true, none, [], 0⟩ rfl
    simpa using h.1

/-- C8: when the body read completes successfully (HandleRead with the
socket open and no error), the deadline timer is cancelled before the
payload is dispatched; when the dispatch produces no reply, the
connection ends with its timer disarmed, so the expiry action cannot
fire after the successful read (an armed timer is the only thing
fireTimer acts on). -/
theorem handleRead_cancels_timer_before_dispatch (cfg : Config)
    (handler : MsgHandler) (c : Conn) (hopen : c.socketOpen = true) :
    (∃ rest, (HandleRead cfg handler false c).2 =
      Action.cancelTimer :: Action.dispatch c.buffer :: rest) ∧
    ((handler c.buffer).1 = [] →
      (HandleRead cfg handler false c).1.timer = none ∧
      fireTimer (HandleRead cfg handler false c).1 =
        ((HandleRead cfg handler false c).1, [])) := by
  constructor
  · by_cases hr : (handler c.buffer).1 = []
    · exact ⟨[], by simp [HandleRead, hopen, DispatchMessage, hr]⟩
    · refine ⟨(Send cfg (handler c.buffer).1 (handler c.buffer).2 true
        { c with timer := none }).2, ?_⟩
      simp [HandleRead, hopen, DispatchMessage, hr]
  · intro hr
    refine ⟨?_, ?_⟩ <;> simp [HandleRead, hopen, DispatchMessage, hr, fireTimer]

/-- Witness for C8 at a concrete connection whose handler replies
nothing. -/
theorem handleRead_cancels_timer_before_dispatch_witness :
    (∃ rest, (HandleRead ⟨4, 100, 10, 1, 7, 0⟩ (fun _ => ([], 0)) false
      ⟨true, some 9, [1, 2], 5⟩).2 =
      Action.cancelTimer :: Action.dispatch [1, 2] :: rest) ∧
    (HandleRead ⟨4, 100, 10, 1, 7, 0⟩ (fun _ => ([], 0)) false
      ⟨true, some 9, [1, 2], 5⟩).1.timer = none ∧
    fireTimer (HandleRead ⟨4, 100, 10, 1, 7, 0⟩ (fun _ => ([], 0)) false
      ⟨true, some 9, [1, 2], 5⟩).1 =
      ((HandleRead ⟨4, 100, 10, 1, 7, 0⟩ (fun _ => ([], 0)) false
        ⟨true, some 9, [1, 2], 5⟩).1, []) := by
  have h := handleRead_cancels_timer_before_dispatch ⟨4, 100, 10, 1, 7, 0⟩
    (fun _ => ([], 0)) ⟨true, some 9, [1, 2], 5⟩ rfl
  exact ⟨h.1, (h.2 rfl).1, (h.2 rfl).2⟩

/-- C9: HandleTimeout on actual expiry closes only the socket and never
notifies the registry; on cancellation it does nothing at all; and
StartTimeout arms the timer to the new duration whatever was armed
before, and that is its only action. -/
theorem handleTimeout_and_startTimeout_behaviour (e : Bool) (c : Conn)
    (d : Nat) :
    HandleTimeout e c =
      (if e then (c, [])
       else ({ c with socketOpen := false }, [Action.closeSocket])) ∧
    countRemoves (HandleTimeout e c).2 = 0 ∧
    (StartTimeout d c).1.timer = some d ∧
    (StartTimeout d c).2 = [Action.startTimeout d] := by
  cases e <;>
    refine ⟨rfl, ?_, rfl, rfl⟩ <;>
      simp [HandleTimeout, countRemoves, isRemove]

/-- C10: on the receive path the decoded length value is never checked
against the configured maximum message size: for every length value n
representable in the length field, HandleSize on a successful length
read reallocates the buffer to exactly n bytes, issues a read of
exactly n bytes, and reports no error, regardless of how n compares to
kMaxTransportMessageSize. -/
theorem handleSize_no_bound_check (cfg : Config) (n : Nat) (tmr : Option Nat)
    (t : Nat) (hrep : n < 256 ^ cfg.sizeFieldWidth) :
    (HandleSize cfg false
      ⟨true, tmr, natToBytesLE cfg.sizeFieldWidth n, t⟩).1.buffer.length = n ∧
    (HandleSize cfg false
      ⟨true, tmr, natToBytesLE cfg.sizeFieldWidth n, t⟩).2 =
      [Action.asyncRead n] ∧
    errorsReported (HandleSize cfg false
      ⟨true, tmr, natToBytesLE cfg.sizeFieldWidth n, t⟩).2 = [] := by
  have htake : (natToBytesLE cfg.sizeFieldWidth n).take cfg.sizeFieldWidth =
      natToBytesLE cfg.sizeFieldWidth n :=
    List.take_of_length_le (le_of_eq (natToBytesLE_length _ _))
  refine ⟨?_, ?_, ?_⟩ <;>
    simp [HandleSize, htake, bytesToNatLE_natToBytesLE _ _ hrep,
      errorsReported, reportedError]

/-- Witness for C10: with a four byte length field and a configured
maximum of 10, a received length of 70000 drives a 70000 byte
allocation and read with no error reported. -/
theorem handleSize_no_bound_check_witness :
    (HandleSize ⟨4, 10, 10, 1, 7, 0⟩ false
      ⟨true, some 7, natToBytesLE 4 70000, 5⟩).1.buffer.length = 70000 ∧
    (HandleSize ⟨4, 10, 10, 1, 7, 0⟩ false
      ⟨true, some 7, natToBytesLE 4 70000, 5⟩).2 =
      [Action.asyncRead 70000] ∧
    errorsReported (HandleSize ⟨4, 10, 10, 1, 7, 0⟩ false
      ⟨true, some 7, natToBytesLE 4 70000, 5⟩).2 = [] :=
  handleSize_no_bound_check ⟨4, 10, 10, 1, 7, 0⟩ 70000 (some 7) 5
    (by norm_num)

end TcpConnection
